import Mathlib

/-!
Verification development for the reconnecting WebSocket client core of
`workflow-rs` (crates `workflow-websocket`: `client/native.rs`,
`client/wasm.rs`, `client/options.rs`).

The Rust code is shallowly embedded as executable Lean definitions:

* the message model and the frame conversions are translated directly;
* the two dispatcher loops (`WebSocketInterface::dispatcher` in `native.rs`
  and `WebSocketInterface::dispatcher_task` in `wasm.rs`) are modelled as
  schedule-driven step functions over explicit queue states, producing a
  trace of observable effects (sink sends, ack deliveries, receiver-channel
  sends, shutdown acknowledgements);
* the reconnect supervisor loop spawned by `connect()` in `native.rs` is
  modelled as a function over a list of per-attempt inputs;
* Rust panics are modelled as a distinguished `none` / exit constructor;
  channel sends to counterparts that are still alive are modelled as
  always-succeeding effect emissions.
-/

/-- The application-visible message type (`message.rs` / spec section 3):
`Text`, `Binary`, synthetic `Open` and `Close`. -/
inductive Message where
  | Text (s : String)
  | Binary (data : List Nat)
  | Open
  | Close
deriving DecidableEq

/-- The transport frame type (`tungstenite::Message`): text, binary, close,
ping, pong and raw intermediate frames. -/
inductive TsMessage where
  | Text (s : String)
  | Binary (data : List Nat)
  | Close
  | Ping (data : List Nat)
  | Pong (data : List Nat)
  | Frame
deriving DecidableEq

/-- `impl From<Message> for tungstenite::Message` (native.rs lines 26-36):
`Text` and `Binary` convert, any other variant panics. `none` models the
panic. -/
def tsMessageOfMessage : Message → Option TsMessage
  | .Text s => some (.Text s)
  | .Binary d => some (.Binary d)
  | _ => none

/-- `impl From<tungstenite::Message> for Message` (native.rs lines 40-51):
`Text`, `Binary`, `Close` convert, any other variant panics (`none`). -/
def messageOfTsMessage : TsMessage → Option Message
  | .Text s => some (.Text s)
  | .Binary d => some (.Binary d)
  | .Close => some .Close
  | _ => none

/-- A message is serializable onto the wire iff it is `Text` or `Binary`
(the synthetic `Open`/`Close` cause the conversion panic). -/
def serializable : Message → Bool
  | .Text _ => true
  | .Binary _ => true
  | _ => false

/-- `ConnectStrategy` (options.rs lines 20-29): `Retry` (default) or
`Fallback`. -/
inductive ConnectStrategy where
  | Retry
  | Fallback
deriving DecidableEq

/-- `ConnectStrategy::new(retry)` (options.rs lines 32-38). -/
def ConnectStrategy.new (retry : Bool) : ConnectStrategy :=
  if retry then .Retry else .Fallback

/-- `ConnectOptions` (options.rs lines 48-57). -/
structure ConnectOptions where
  block_async_connect : Bool
  strategy : ConnectStrategy
  url : Option String
deriving DecidableEq

/-- `impl Default for ConnectOptions` (options.rs lines 59-67). -/
def ConnectOptions.default : ConnectOptions :=
  { block_async_connect := true, strategy := .Retry, url := none }

/-- A loosely-typed host (JavaScript) value, as far as the
`TryFrom<JsValue> for ConnectOptions` conversion inspects it: an object with
named fields, a boolean, a string, or anything else. -/
inductive JsValue where
  | object (fields : List (String × JsValue))
  | boolean (b : Bool)
  | str (s : String)
  | other

/-- Property lookup on a host object (`Object::get`); a missing key yields
the undefined value, modelled as `JsValue.other`. -/
def jsGet (fields : List (String × JsValue)) (key : String) : JsValue :=
  match fields.lookup key with
  | some v => v
  | none => .other

/-- `JsValue::as_string`: `some` only on string values. -/
def JsValue.asString : JsValue → Option String
  | .str s => some s
  | _ => none

/-- `JsValue::as_bool`: `some` only on boolean values. -/
def JsValue.asBool : JsValue → Option Bool
  | .boolean b => some b
  | _ => none

/-- `impl TryFrom<JsValue> for ConnectOptions` (options.rs lines 86-111):
an object is read through keys `url`, `block`, `retry`; a bare boolean is
interpreted as `retry`; any other shape yields the defaults. -/
def connectOptionsTryFromJs (args : JsValue) : ConnectOptions :=
  match args with
  | .object fields =>
      { url := (jsGet fields "url").asString
        block_async_connect := ((jsGet fields "block").asBool).getD true
        strategy := ConnectStrategy.new (((jsGet fields "retry").asBool).getD true) }
  | .boolean retry =>
      { block_async_connect := true
        strategy := ConnectStrategy.new retry
        url := none }
  | _ => ConnectOptions.default

/-- Outcome of the synchronous entry of `WebSocketInterface::connect`
(native.rs lines 119-141), before the supervisor task is spawned. -/
inductive ConnectEntryResult where
  | panicMissingUrl
  | errAlreadyConnected
  | errMissingUrl
  | spawned (capturedUrl : String) (settingsAfter : Option String)
deriving DecidableEq

/-- Synchronous entry of `WebSocketInterface::connect` (native.rs lines
119-141), translated statement by statement:
line 122 `let target_url = this.url().clone().expect("missing URL")` —
panics when `settings.url` is `None`; line 123 the `AlreadyConnected`
guard; line 133 the `options.url` override written into settings; line 137
the `MissingUrl` check on the post-override settings. The spawned
supervisor loop dials `target_url`, the value captured at line 122. -/
def connectEntry (settingsUrl : Option String) (isOpen : Bool)
    (opts : ConnectOptions) : ConnectEntryResult :=
  match settingsUrl with
  | none => .panicMissingUrl
  | some captured =>
      if isOpen then .errAlreadyConnected
      else
        let settings1 : Option String :=
          match opts.url with
          | some u => some u
          | none => some captured
        if settings1.isNone then .errMissingUrl
        else .spawned captured settings1

/-- Recognizer for the `MissingUrl` outcome of `connectEntry`. -/
def isErrMissingUrl : ConnectEntryResult → Bool
  | .errMissingUrl => true
  | _ => false

/-- One of the three event sources multiplexed by a dispatcher loop. -/
inductive Src where
  | out
  | inn
  | shut
deriving DecidableEq

/-- One poll result of the native inbound transport source
(`ws_receiver.next()`): `frame` is `Some(Ok(msg))`, `readErr` is
`Some(Err(e))`.  `None` (end of stream) is represented by an exhausted
inbound queue whose `ineof` flag is set. -/
inductive InEvent where
  | frame (m : TsMessage)
  | readErr
deriving DecidableEq

/-- State visible to the native dispatcher loop: the queued outbound
`(msg, ack)` pairs (acks named by `Nat` identifiers), the queued inbound
poll results, whether the inbound stream has ended, whether a shutdown
request is pending, and the predetermined results of upcoming transport
sink sends (`true` = `Ok`; an exhausted list means the sink keeps
succeeding). -/
structure NativeState where
  outq : List (Message × Option Nat)
  inq : List InEvent
  ineof : Bool
  shutReq : Bool
  sink : List Bool
deriving DecidableEq

/-- Observable effects of the native dispatcher: a frame pushed into the
transport sink, a result delivered into an ack slot, a message sent on the
receiver channel, and the shutdown-response acknowledgement. -/
inductive Effect where
  | sinkSend (frame : TsMessage)
  | ackResult (id : Nat) (ok : Bool)
  | recv (m : Message)
  | shutdownAck
deriving DecidableEq

/-- How a dispatcher run ended: still inside the loop (`running`), returned
`Ok(())` after `break` (`okExit`), returned an error through `?`
(`errExit`), or panicked (`panicked`). -/
inductive ExitKind where
  | running
  | okExit
  | errExit
  | panicked
deriving DecidableEq

/-- Result of driving the native dispatcher with a schedule: the trace of
effects, the exit kind, and the outbound items dequeued from the sender
channel, in order. -/
structure RunResult where
  trace : List Effect
  exit : ExitKind
  processed : List (Message × Option Nat)
deriving DecidableEq

/-- Prepend the effects and dequeued items of one loop iteration onto the
result of the continued run. -/
def RunResult.withPre (es : List Effect) (ps : List (Message × Option Nat))
    (r : RunResult) : RunResult :=
  { trace := es ++ r.trace, exit := r.exit, processed := ps ++ r.processed }

/-- Schedule events driving the native dispatcher: arrivals on the three
sources, end of the inbound stream, and `step`, one resolution of the
`select_biased!` statement over the sources currently ready. -/
inductive Ev where
  | enqOut (m : Message) (ack : Option Nat)
  | enqIn (e : InEvent)
  | endIn
  | reqShutdown
  | step

/-- The readiness resolution of the native dispatcher's `select_biased!`
(native.rs lines 294-341): arms are polled in written order, so a ready
outbound item wins over a ready inbound poll, which wins over a pending
shutdown request.  The inbound source is ready when a frame is queued or
the stream has ended.  `none` means no source is ready (the loop is
blocked). -/
def nativeSelect (s : NativeState) : Option Src :=
  if !s.outq.isEmpty then some .out
  else if !s.inq.isEmpty || s.ineof then some .inn
  else if s.shutReq then some .shut
  else none

/-- Schedule-driven run of the native dispatcher loop
(`WebSocketInterface::dispatcher`, native.rs lines 293-342), one arm at a
time:

* outbound `(msg, ack)` (lines 295-305): `msg.into()` panics on synthetic
  messages; with an ack, the sink result is wrapped and delivered into the
  ack and the loop continues either way; without an ack the sink send is
  propagated with `?`, so a sink error exits the loop with that error;
* inbound (lines 307-334): `Text`/`Binary`/`Close` frames are forwarded to
  the receiver channel and the loop continues; `Ping(d)` answers
  `Pong(d)` on the sink (propagated with `?`); `Pong` and raw frames are
  dropped; a read error or end of stream sends `Message::Close` on the
  receiver channel and breaks;
* shutdown (lines 336-339): sends `Message::Close`, acknowledges on the
  shutdown response channel, and breaks.

Events arriving after the loop has exited are ignored. -/
def nativeDispatcherRun : List Ev → NativeState → RunResult
  | [], _ => { trace := [], exit := .running, processed := [] }
  | .enqOut m a :: evs, s =>
      nativeDispatcherRun evs { s with outq := s.outq ++ [(m, a)] }
  | .enqIn e :: evs, s =>
      nativeDispatcherRun evs { s with inq := s.inq ++ [e] }
  | .endIn :: evs, s =>
      nativeDispatcherRun evs { s with ineof := true }
  | .reqShutdown :: evs, s =>
      nativeDispatcherRun evs { s with shutReq := true }
  | .step :: evs, s =>
      match nativeSelect s with
      | none => nativeDispatcherRun evs s
      | some .out =>
          match s.outq with
          | [] => nativeDispatcherRun evs s
          | (m, ack) :: rest =>
              match tsMessageOfMessage m with
              | none =>
                  { trace := [], exit := .panicked, processed := [(m, ack)] }
              | some frame =>
                  let ok := s.sink.headD true
                  let s' := { s with outq := rest, sink := s.sink.tail }
                  match ack with
                  | some a =>
                      RunResult.withPre [.sinkSend frame, .ackResult a ok]
                        [(m, some a)] (nativeDispatcherRun evs s')
                  | none =>
                      if ok then
                        RunResult.withPre [.sinkSend frame] [(m, none)]
                          (nativeDispatcherRun evs s')
                      else
                        { trace := [.sinkSend frame], exit := .errExit,
                          processed := [(m, none)] }
      | some .inn =>
          match s.inq with
          | .frame f :: rest =>
              let s' := { s with inq := rest }
              match f with
              | .Text t =>
                  RunResult.withPre [.recv (.Text t)] []
                    (nativeDispatcherRun evs s')
              | .Binary d =>
                  RunResult.withPre [.recv (.Binary d)] []
                    (nativeDispatcherRun evs s')
              | .Close =>
                  RunResult.withPre [.recv .Close] []
                    (nativeDispatcherRun evs s')
              | .Ping d =>
                  let ok := s.sink.headD true
                  let s'' := { s' with sink := s.sink.tail }
                  if ok then
                    RunResult.withPre [.sinkSend (.Pong d)] []
                      (nativeDispatcherRun evs s'')
                  else
                    { trace := [.sinkSend (.Pong d)], exit := .errExit,
                      processed := [] }
              | .Pong _ => nativeDispatcherRun evs s'
              | .Frame => nativeDispatcherRun evs s'
          | .readErr :: _ =>
              { trace := [.recv .Close], exit := .okExit, processed := [] }
          | [] =>
              { trace := [.recv .Close], exit := .okExit, processed := [] }
      | some .shut =>
          { trace := [.recv .Close, .shutdownAck], exit := .okExit,
            processed := [] }

/-- The state of the native dispatcher at loop entry: all queues empty,
stream live, no shutdown pending, sink succeeding. -/
def nativeInit : NativeState :=
  { outq := [], inq := [], ineof := false, shutReq := false, sink := [] }

/-- Ack identifiers receiving a result, in trace order. -/
def ackEffects (tr : List Effect) : List Nat :=
  tr.filterMap fun e =>
    match e with
    | .ackResult a _ => some a
    | _ => none

/-- Ack identifiers carried by a list of outbound items, in order. -/
def ackIds (ps : List (Message × Option Nat)) : List Nat :=
  ps.filterMap Prod.snd

/-- All outbound items queued in a native dispatcher state are
wire-serializable. -/
def stateOutOk (s : NativeState) : Bool :=
  s.outq.all fun p => serializable p.1

/-- All outbound messages a schedule will enqueue are wire-serializable. -/
def evsOutOk (evs : List Ev) : Bool :=
  evs.all fun e =>
    match e with
    | .enqOut m _ => serializable m
    | _ => true

/-- State visible to the browser dispatcher loop
(`dispatcher_task`, wasm.rs lines 283-348): queued outbound `(msg, ack)`
pairs, queued event-channel messages (fed by the `onmessage`/`onopen`/
`onclose` callbacks), a pending shutdown request, predetermined results of
upcoming `ws.try_send` calls, the `is_open` flag, whether the first-connect
trigger is still armed, and the handshake hook outcome (`none` = no hook
installed, `some b` = the hook completes with success `b`). -/
structure WasmState where
  outq : List (Message × Option Nat)
  evq : List Message
  shutReq : Bool
  sink : List Bool
  isOpen : Bool
  triggerArmed : Bool
  hookOutcome : Option Bool
deriving DecidableEq

/-- Observable effects of the browser dispatcher: a message pushed through
`ws.try_send`, a result delivered into an ack slot, a message sent on the
receiver channel, the first-connect trigger fired, and the callback
cleanup performed on close. -/
inductive WEffect where
  | send (m : Message)
  | ackResult (id : Nat) (ok : Bool)
  | recv (m : Message)
  | triggerFire
  | cleanup
deriving DecidableEq

/-- Result of driving the browser dispatcher with a schedule: effect trace,
exit kind, outbound items dequeued from the sender channel, and
event-channel messages consumed, each in order. -/
structure WRunResult where
  trace : List WEffect
  exit : ExitKind
  processed : List (Message × Option Nat)
  evProcessed : List Message
deriving DecidableEq

/-- Prepend one browser-dispatcher iteration's effects, dequeued outbound
items and consumed events onto the continued run. -/
def WRunResult.withPre (es : List WEffect)
    (ps : List (Message × Option Nat)) (ms : List Message)
    (r : WRunResult) : WRunResult :=
  { trace := es ++ r.trace, exit := r.exit,
    processed := ps ++ r.processed, evProcessed := ms ++ r.evProcessed }

/-- Schedule events driving the browser dispatcher: arrivals on the three
sources, and `pick c`, one resolution of the (unbiased) `select!`
statement choosing arm `c`.  Because `select!` polls its arms in random
order, any ready arm may be picked; a `pick` of an arm that is not ready
is a no-op. -/
inductive WEv where
  | enqOut (m : Message) (ack : Option Nat)
  | enqEv (m : Message)
  | reqShutdown
  | pick (c : Src)

/-- Whether a given arm of the browser dispatcher's `select!` is ready. -/
def wasmReady (s : WasmState) : Src → Bool
  | .out => !s.outq.isEmpty
  | .inn => !s.evq.isEmpty
  | .shut => s.shutReq

/-- Schedule-driven run of the browser dispatcher loop
(`WebSocketInterface::dispatcher_task`, wasm.rs lines 283-348), one arm at
a time:

* shutdown (lines 290-292): `break` — no effect is emitted;
* event channel (lines 293-319): `Text`/`Binary` are forwarded to the
  receiver channel and the loop continues; `Open` first runs the handshake
  hook (a hook failure exits the loop through `?`), then sets `is_open`,
  fires the first-connect trigger if it is still armed, forwards `Open`,
  and continues; `Close` clears `is_open`, tears down the callbacks,
  forwards `Close`, and breaks;
* outbound (lines 320-341): `ws.try_send` panics on synthetic messages;
  with an ack the result is delivered into the ack (delivery failures only
  logged) and the loop continues; without an ack a send failure is only
  logged and the loop continues.

Events arriving after the loop has exited are ignored. -/
def wasmDispatcherRun : List WEv → WasmState → WRunResult
  | [], _ =>
      { trace := [], exit := .running, processed := [], evProcessed := [] }
  | .enqOut m a :: evs, s =>
      wasmDispatcherRun evs { s with outq := s.outq ++ [(m, a)] }
  | .enqEv m :: evs, s =>
      wasmDispatcherRun evs { s with evq := s.evq ++ [m] }
  | .reqShutdown :: evs, s =>
      wasmDispatcherRun evs { s with shutReq := true }
  | .pick c :: evs, s =>
      if wasmReady s c then
        match c with
        | .shut =>
            { trace := [], exit := .okExit, processed := [],
              evProcessed := [] }
        | .inn =>
            match s.evq with
            | [] => wasmDispatcherRun evs s
            | m :: rest =>
                let s' := { s with evq := rest }
                match m with
                | .Text t =>
                    WRunResult.withPre [.recv (.Text t)] [] [.Text t]
                      (wasmDispatcherRun evs s')
                | .Binary d =>
                    WRunResult.withPre [.recv (.Binary d)] [] [.Binary d]
                      (wasmDispatcherRun evs s')
                | .Open =>
                    if s.hookOutcome = some false then
                      { trace := [], exit := .errExit, processed := [],
                        evProcessed := [.Open] }
                    else
                      let fireNow := s.triggerArmed
                      let s'' :=
                        { s' with isOpen := true, triggerArmed := false }
                      WRunResult.withPre
                        ((if fireNow then [WEffect.triggerFire] else [])
                          ++ [.recv .Open]) [] [.Open]
                        (wasmDispatcherRun evs s'')
                | .Close =>
                    { trace := [.cleanup, .recv .Close], exit := .okExit,
                      processed := [], evProcessed := [.Close] }
        | .out =>
            match s.outq with
            | [] => wasmDispatcherRun evs s
            | (m, ack) :: rest =>
                if serializable m then
                  let ok := s.sink.headD true
                  let s' := { s with outq := rest, sink := s.sink.tail }
                  match ack with
                  | some a =>
                      WRunResult.withPre [.send m, .ackResult a ok]
                        [(m, some a)] [] (wasmDispatcherRun evs s')
                  | none =>
                      WRunResult.withPre [.send m] [(m, none)] []
                        (wasmDispatcherRun evs s')
                else
                  { trace := [], exit := .panicked, processed := [(m, ack)],
                    evProcessed := [] }
      else wasmDispatcherRun evs s

/-- The state of the browser dispatcher at task start with the
first-connect trigger armed and no handshake hook installed. -/
def wasmInit : WasmState :=
  { outq := [], evq := [], shutReq := false, sink := [], isOpen := false,
    triggerArmed := true, hookOutcome := none }

/-- Ack identifiers receiving a result in a browser-dispatcher trace, in
order. -/
def ackEffectsW (tr : List WEffect) : List Nat :=
  tr.filterMap fun e =>
    match e with
    | .ackResult a _ => some a
    | _ => none

/-- All outbound items queued in a browser dispatcher state are
wire-serializable. -/
def wStateOutOk (s : WasmState) : Bool :=
  s.outq.all fun p => serializable p.1

/-- All outbound messages a browser schedule will enqueue are
wire-serializable. -/
def wevsOutOk (evs : List WEv) : Bool :=
  evs.all fun e =>
    match e with
    | .enqOut m _ => serializable m
    | _ => true

/-- Outcome of one dial attempt in the supervisor loop spawned by
`connect()` (native.rs lines 144-228): the host resolution failed
(lines 146-158, silent `break`), the dial succeeded (lines 181-196), the
dial returned an error (`Ok(Err(e))`, lines 198-207), or the per-attempt
timeout expired (`Err(_)`, lines 209-222). -/
inductive AttemptOutcome where
  | resolveFailed
  | connected
  | dialError
  | timeoutExpired
deriving DecidableEq

/-- Environment of one supervisor iteration: an optional `set_url` call
landing before the attempt begins, the attempt outcome, and the value of
the `reconnect` flag at the end-of-iteration check (line 225). -/
structure SupIter where
  setUrlBefore : Option String
  outcome : AttemptOutcome
  reconnectAfter : Bool
deriving DecidableEq

/-- A value sent into the caller's first-connect one-shot
(`connect_trigger`): `Ok(())` on the first successful dial, the wrapped
dial error, or `Error::ConnectionTimeout`. -/
inductive FiredMsg where
  | ok
  | errDial
  | errConnectionTimeout
deriving DecidableEq

/-- Result of running the supervisor loop over a list of iteration
environments: one-shot firings, the URL passed to each `connect` call in
order, the final `settings.url` value, whether the loop terminated (broke)
before the environment list ran out, and the number of iterations
consumed. -/
structure SupRes where
  fired : List FiredMsg
  dialUrls : List String
  settingsUrl : Option String
  terminated : Bool
  itersUsed : Nat
deriving DecidableEq

/-- The supervisor loop spawned by `connect()` (native.rs lines 144-228),
with `captured` the `target_url` captured once at line 122 before the task
was spawned.  Each iteration resolves and dials `captured` — the loop body
never reads `settings.url` — so `setUrlBefore` only updates the settings
record.  Translation of the arms:

* resolution failure: `break` without firing the one-shot;
* `Ok(Ok(stream))`: set `is_open`, fire the one-shot with `Ok(())` if still
  armed, run the dispatcher, clear `is_open`, then check `reconnect`;
* `Ok(Err(e))` with strategy `Fallback`: fire the one-shot with the error
  if `block_async_connect` is set and it is still armed, then `break`;
  with `Retry`: sleep `retry_interval`, then check `reconnect`;
* timeout: same as the dial error, with `Error::ConnectionTimeout`. -/
def supervisorRun (strategy : ConnectStrategy) (block : Bool)
    (captured : String) :
    List SupIter → Option String → Bool → SupRes
  | [], settings, _ =>
      { fired := [], dialUrls := [], settingsUrl := settings,
        terminated := false, itersUsed := 0 }
  | it :: rest, settings, armed =>
      let settings1 : Option String :=
        match it.setUrlBefore with
        | some u => some u
        | none => settings
      match it.outcome with
      | .resolveFailed =>
          { fired := [], dialUrls := [], settingsUrl := settings1,
            terminated := true, itersUsed := 1 }
      | .connected =>
          let fired := if armed then [FiredMsg.ok] else []
          if it.reconnectAfter then
            let r := supervisorRun strategy block captured rest settings1 false
            { fired := fired ++ r.fired, dialUrls := captured :: r.dialUrls,
              settingsUrl := r.settingsUrl, terminated := r.terminated,
              itersUsed := r.itersUsed + 1 }
          else
            { fired := fired, dialUrls := [captured],
              settingsUrl := settings1, terminated := true, itersUsed := 1 }
      | .dialError =>
          if strategy = .Fallback then
            { fired := if block && armed then [FiredMsg.errDial] else [],
              dialUrls := [captured], settingsUrl := settings1,
              terminated := true, itersUsed := 1 }
          else
            if it.reconnectAfter then
              let r := supervisorRun strategy block captured rest settings1 armed
              { fired := r.fired, dialUrls := captured :: r.dialUrls,
                settingsUrl := r.settingsUrl, terminated := r.terminated,
                itersUsed := r.itersUsed + 1 }
            else
              { fired := [], dialUrls := [captured], settingsUrl := settings1,
                terminated := true, itersUsed := 1 }
      | .timeoutExpired =>
          if strategy = .Fallback then
            { fired :=
                if block && armed then [FiredMsg.errConnectionTimeout] else [],
              dialUrls := [captured], settingsUrl := settings1,
              terminated := true, itersUsed := 1 }
          else
            if it.reconnectAfter then
              let r := supervisorRun strategy block captured rest settings1 armed
              { fired := r.fired, dialUrls := captured :: r.dialUrls,
                settingsUrl := r.settingsUrl, terminated := r.terminated,
                itersUsed := r.itersUsed + 1 }
            else
              { fired := [], dialUrls := [captured], settingsUrl := settings1,
                terminated := true, itersUsed := 1 }

/-- A browser dispatcher state in which both the outbound arm and the
shutdown arm of the `select!` are simultaneously ready. -/
def wasmBothReadyState : WasmState :=
  { outq := [(Message.Text "x", some 0)], evq := [], shutReq := true,
    sink := [], isOpen := true, triggerArmed := false, hookOutcome := none }

/-- Claim C3 (code bug): with no URL in settings and no override,
`connect()` does not return the `MissingUrl` error — it panics at
`this.url().clone().expect("missing URL")` (native.rs line 122), which
runs before the `MissingUrl` check at line 137.  Moreover that check is
dead code: no input at all makes `connectEntry` return `errMissingUrl`,
because line 122 panics whenever settings hold no URL, and otherwise the
post-override URL is always present. -/
theorem C3_connect_missing_url_panics :
    connectEntry none false ConnectOptions.default
        = ConnectEntryResult.panicMissingUrl
    ∧ ∀ (s : Option String) (o : Bool) (opts : ConnectOptions),
        isErrMissingUrl (connectEntry s o opts) = false := by
  refine ⟨rfl, ?_⟩
  intro s o opts
  cases s with
  | none => rfl
  | some captured =>
      cases o with
      | true => rfl
      | false =>
          cases h : opts.url with
          | none => simp [connectEntry, h, isErrMissingUrl]
          | some u => simp [connectEntry, h, isErrMissingUrl]

/-- Claim C9: converting a loosely-typed host value into `ConnectOptions`
(options.rs lines 86-111): an object is read through keys `url` (optional
string), `block` (optional bool, default `true`) and `retry` (optional
bool, default `true`, `true` mapping to `Retry` and `false` to
`Fallback`); a bare boolean `b` yields `block_async_connect = true`,
strategy `Retry` iff `b`, no URL; any other shape yields the defaults. -/
theorem C9_connect_options_from_js (fields : List (String × JsValue))
    (b : Bool) (t : String) :
    connectOptionsTryFromJs (JsValue.object fields)
        = { url := (jsGet fields "url").asString
            block_async_connect := ((jsGet fields "block").asBool).getD true
            strategy :=
              if ((jsGet fields "retry").asBool).getD true then
                ConnectStrategy.Retry
              else ConnectStrategy.Fallback }
    ∧ connectOptionsTryFromJs (JsValue.boolean b)
        = { url := none
            block_async_connect := true
            strategy :=
              if b then ConnectStrategy.Retry else ConnectStrategy.Fallback }
    ∧ connectOptionsTryFromJs (JsValue.str t)
        = { url := none, block_async_connect := true,
            strategy := ConnectStrategy.Retry }
    ∧ connectOptionsTryFromJs JsValue.other
        = { url := none, block_async_connect := true,
            strategy := ConnectStrategy.Retry } :=
  ⟨rfl, rfl, rfl, rfl⟩

/-- Claim C2, counterexample: the native dispatcher forwards a peer close
frame to the receiver channel but the loop keeps running — a `Text` frame
queued behind the close frame is still processed and forwarded, and the
run is still inside the loop afterwards (`running`, not an exit). -/
theorem C2_counterexample :
    nativeDispatcherRun
        [Ev.enqIn (InEvent.frame TsMessage.Close),
         Ev.enqIn (InEvent.frame (TsMessage.Text "hi")), Ev.step, Ev.step]
        nativeInit
      = { trace := [Effect.recv Message.Close,
                    Effect.recv (Message.Text "hi")],
          exit := ExitKind.running, processed := [] } := rfl

/-- Claim C2, amended: when the native dispatcher dequeues a peer close
frame from the transport source, it forwards `Message::Close` to the
receiver channel and the loop continues — the peer-close frame itself does
not terminate the dispatcher loop (native.rs line 311: `Close` is grouped
with `Text`/`Binary` in the forwarding arm, which does not `break`): the
step contributes exactly the one receiver-channel effect and the run
proceeds as from the state with that frame consumed. -/
theorem C2_close_forwarded_loop_continues (s : NativeState) (evs : List Ev)
    (rest : List InEvent) (h1 : s.outq = [])
    (h2 : s.inq = InEvent.frame TsMessage.Close :: rest) :
    nativeDispatcherRun (Ev.step :: evs) s
      = RunResult.withPre [Effect.recv Message.Close] []
          (nativeDispatcherRun evs { s with inq := rest }) := by
  simp [nativeDispatcherRun, nativeSelect, h1, h2]

/-- Witness for `C2_close_forwarded_loop_continues` at a concrete state. -/
theorem C2_close_forwarded_witness :
    nativeDispatcherRun [Ev.step]
        { outq := [], inq := [InEvent.frame TsMessage.Close], ineof := false,
          shutReq := false, sink := [] }
      = RunResult.withPre [Effect.recv Message.Close] []
          (nativeDispatcherRun []
            { outq := [], inq := [], ineof := false, shutReq := false,
              sink := [] }) :=
  C2_close_forwarded_loop_continues _ [] [] rfl rfl

/-- Claim C4, counterexample: the browser dispatcher's `select!` (wasm.rs
line 289) is not biased — with an outbound item and a shutdown request
simultaneously ready, the run in which the select resolves to the shutdown
arm is legal, and it exits the loop without ever processing the ready
outbound item (contradicting outbound-before-shutdown priority claimed for
both client implementations). -/
theorem C4_counterexample :
    wasmReady wasmBothReadyState Src.out = true
    ∧ wasmReady wasmBothReadyState Src.shut = true
    ∧ wasmDispatcherRun [WEv.pick Src.shut] wasmBothReadyState
        = { trace := [], exit := ExitKind.okExit, processed := [],
            evProcessed := [] } :=
  ⟨rfl, rfl, rfl⟩

/-- Claim C4, amended: in the native dispatcher the `select_biased!`
(native.rs line 294) gives strict priority outbound over inbound over
shutdown when several sources are simultaneously ready; the browser
dispatcher instead uses an unbiased `select!` (wasm.rs line 289), so any
ready arm may be processed first — in particular a pending shutdown may be
taken while an outbound item is ready. -/
theorem C4_select_priority :
    (∀ s : NativeState, s.outq.isEmpty = false → nativeSelect s = some Src.out)
    ∧ (∀ s : NativeState, s.outq = [] → s.inq.isEmpty = false →
        nativeSelect s = some Src.inn)
    ∧ (∀ s : NativeState, s.outq = [] → s.inq = [] → s.ineof = false →
        s.shutReq = true → nativeSelect s = some Src.shut)
    ∧ (wasmReady wasmBothReadyState Src.out = true
       ∧ wasmDispatcherRun [WEv.pick Src.shut] wasmBothReadyState
           = { trace := [], exit := ExitKind.okExit, processed := [],
               evProcessed := [] }) := by
  refine ⟨?_, ?_, ?_, rfl, rfl⟩
  · intro s h
    simp [nativeSelect, h]
  · intro s h1 h2
    simp [nativeSelect, h1, h2]
  · intro s h1 h2 h3 h4
    simp [nativeSelect, h1, h2, h3, h4]

/-- Witness for `C4_select_priority` at concrete states: one with all
three native sources ready, one with inbound and shutdown ready, one with
only shutdown ready. -/
theorem C4_select_priority_witness :
    nativeSelect
        { outq := [(Message.Text "x", none)], inq := [InEvent.readErr],
          ineof := false, shutReq := true, sink := [] } = some Src.out
    ∧ nativeSelect
        { outq := [], inq := [InEvent.readErr], ineof := false,
          shutReq := true, sink := [] } = some Src.inn
    ∧ nativeSelect
        { outq := [], inq := [], ineof := false, shutReq := true,
          sink := [] } = some Src.shut :=
  ⟨C4_select_priority.1 _ rfl, C4_select_priority.2.1 _ rfl rfl,
   C4_select_priority.2.2.1 _ rfl rfl rfl rfl⟩

/-- Claim C5: under `ConnectStrategy::Fallback` with `block_async_connect`
set, the first failed dial attempt makes the supervisor loop terminate
after that single iteration and delivers the failure into the caller's
still-armed first-connect one-shot; when the failure is the per-attempt
timeout, the delivered error is the `ConnectionTimeout` kind
(native.rs lines 198-222). -/
theorem C5_fallback_block_first_failure (captured : String)
    (settings0 : Option String) (it : SupIter) (rest : List SupIter) :
    (it.outcome = AttemptOutcome.dialError →
      (supervisorRun ConnectStrategy.Fallback true captured (it :: rest)
          settings0 true).fired = [FiredMsg.errDial]
      ∧ (supervisorRun ConnectStrategy.Fallback true captured (it :: rest)
          settings0 true).terminated = true
      ∧ (supervisorRun ConnectStrategy.Fallback true captured (it :: rest)
          settings0 true).itersUsed = 1)
    ∧ (it.outcome = AttemptOutcome.timeoutExpired →
      (supervisorRun ConnectStrategy.Fallback true captured (it :: rest)
          settings0 true).fired = [FiredMsg.errConnectionTimeout]
      ∧ (supervisorRun ConnectStrategy.Fallback true captured (it :: rest)
          settings0 true).terminated = true
      ∧ (supervisorRun ConnectStrategy.Fallback true captured (it :: rest)
          settings0 true).itersUsed = 1) := by
  constructor
  · intro h
    refine ⟨?_, ?_, ?_⟩ <;> simp [supervisorRun, h]
  · intro h
    refine ⟨?_, ?_, ?_⟩ <;> simp [supervisorRun, h]

/-- Witness for `C5_fallback_block_first_failure`: a dial-error iteration
and a timeout iteration, each run from an armed one-shot. -/
theorem C5_fallback_witness :
    (supervisorRun ConnectStrategy.Fallback true "ws://srv"
        [⟨none, AttemptOutcome.dialError, true⟩] none true).fired
      = [FiredMsg.errDial]
    ∧ (supervisorRun ConnectStrategy.Fallback true "ws://srv"
        [⟨none, AttemptOutcome.timeoutExpired, true⟩] none true).fired
      = [FiredMsg.errConnectionTimeout] :=
  ⟨((C5_fallback_block_first_failure "ws://srv" none
      ⟨none, AttemptOutcome.dialError, true⟩ []).1 rfl).1,
   ((C5_fallback_block_first_failure "ws://srv" none
      ⟨none, AttemptOutcome.timeoutExpired, true⟩ []).2 rfl).1⟩

/-- Claim C6, counterexample: the supervisor loop dials the URL captured
once when `connect()` was called (native.rs line 122), not the value of
`settings.url` at the moment each attempt begins.  Here `set_url("ws://b")`
lands before the second attempt — the settings record does end up holding
`"ws://b"` — yet the second attempt still dials `"ws://a"`, not the
`["ws://a", "ws://b"]` the claim predicts. -/
theorem C6_counterexample :
    (supervisorRun ConnectStrategy.Retry true "ws://a"
        [⟨none, AttemptOutcome.dialError, true⟩,
         ⟨some "ws://b", AttemptOutcome.dialError, true⟩]
        (some "ws://a") true).dialUrls = ["ws://a", "ws://a"]
    ∧ (supervisorRun ConnectStrategy.Retry true "ws://a"
        [⟨none, AttemptOutcome.dialError, true⟩,
         ⟨some "ws://b", AttemptOutcome.dialError, true⟩]
        (some "ws://a") true).settingsUrl = some "ws://b"
    ∧ ["ws://a", "ws://a"] ≠ ["ws://a", "ws://b"] := by
  refine ⟨rfl, rfl, by decide⟩

/-- Claim C6, amended: every dial attempt of a running supervisor uses the
URL captured from settings when `connect()` was called; `set_url()` calls
made while the supervisor runs update the settings record but change the
URL of no attempt of that supervisor (the loop body never re-reads
`settings.url`). -/
theorem C6_dial_url_is_captured (strategy : ConnectStrategy) (block : Bool)
    (captured : String) (iters : List SupIter) (settings : Option String)
    (armed : Bool) :
    ((supervisorRun strategy block captured iters settings armed).dialUrls).all
      (fun u => u == captured) = true := by
  induction iters generalizing settings armed with
  | nil => rfl
  | cons it rest ih =>
      cases h : it.outcome with
      | resolveFailed => simp [supervisorRun, h]
      | connected =>
          by_cases hr : it.reconnectAfter <;>
            simp [supervisorRun, h, hr, ih]
      | dialError =>
          by_cases hs : strategy = ConnectStrategy.Fallback
          · simp [supervisorRun, h, hs]
          · by_cases hr : it.reconnectAfter <;>
              simp [supervisorRun, h, hs, hr, ih]
      | timeoutExpired =>
          by_cases hs : strategy = ConnectStrategy.Fallback
          · simp [supervisorRun, h, hs]
          · by_cases hr : it.reconnectAfter <;>
              simp [supervisorRun, h, hs, hr, ih]

/-- Claim C7, counterexample: in the native dispatcher an ack-less
outbound send whose transport sink send fails is not merely logged — the
`?` on `ws_sender.send(msg.into()).await?` (native.rs line 303) propagates
the error out of the dispatcher.  The run exits with `errExit` and a
`Text` frame arriving afterwards is never processed: the loop did not
continue. -/
theorem C7_counterexample :
    nativeDispatcherRun
        [Ev.step, Ev.enqIn (InEvent.frame (TsMessage.Text "y")), Ev.step]
        { outq := [(Message.Text "x", none)], inq := [], ineof := false,
          shutReq := false, sink := [false] }
      = { trace := [Effect.sinkSend (TsMessage.Text "x")],
          exit := ExitKind.errExit,
          processed := [(Message.Text "x", none)] } := rfl

/-- Claim C7, amended: when an ack-less outbound send fails at the
transport sink, the browser dispatcher only logs the failure and its loop
continues (wasm.rs lines 336-340), but the native dispatcher propagates
the sink error out of the dispatcher through `?` and the loop terminates
with that error (native.rs line 303). -/
theorem C7_ackless_send_failure (s : NativeState) (ws : WasmState)
    (evs : List Ev) (wevs : List WEv) (m mw : Message) (f : TsMessage)
    (r rw : List (Message × Option Nat)) (sr srw : List Bool)
    (h1 : s.outq = (m, none) :: r) (hf : tsMessageOfMessage m = some f)
    (h3 : s.sink = false :: sr)
    (h4 : ws.outq = (mw, none) :: rw) (h5 : serializable mw = true)
    (h6 : ws.sink = false :: srw) :
    nativeDispatcherRun (Ev.step :: evs) s
      = { trace := [Effect.sinkSend f], exit := ExitKind.errExit,
          processed := [(m, none)] }
    ∧ wasmDispatcherRun (WEv.pick Src.out :: wevs) ws
      = WRunResult.withPre [WEffect.send mw] [(mw, none)] []
          (wasmDispatcherRun wevs { ws with outq := rw, sink := srw }) := by
  constructor
  · simp [nativeDispatcherRun, nativeSelect, h1, hf, h3]
  · simp [wasmDispatcherRun, wasmReady, h4, h5, h6]

/-- Witness for `C7_ackless_send_failure` at concrete states with a
failing sink. -/
theorem C7_ackless_send_failure_witness :
    nativeDispatcherRun [Ev.step]
        { outq := [(Message.Text "x", none)], inq := [], ineof := false,
          shutReq := false, sink := [false] }
      = { trace := [Effect.sinkSend (TsMessage.Text "x")],
          exit := ExitKind.errExit,
          processed := [(Message.Text "x", none)] }
    ∧ wasmDispatcherRun [WEv.pick Src.out]
        { outq := [(Message.Text "z", none)], evq := [], shutReq := false,
          sink := [false], isOpen := true, triggerArmed := false,
          hookOutcome := none }
      = WRunResult.withPre [WEffect.send (Message.Text "z")]
          [(Message.Text "z", none)] []
          (wasmDispatcherRun []
            { outq := [], evq := [], shutReq := false, sink := [],
              isOpen := true, triggerArmed := false, hookOutcome := none }) :=
  C7_ackless_send_failure _ _ [] [] (Message.Text "x") (Message.Text "z")
    (TsMessage.Text "x") [] [] [] [] rfl rfl rfl rfl rfl rfl

/-- Claim C8: when the native dispatcher dequeues a `Ping(d)` frame from
the transport, it pushes exactly one `Pong(d)` frame with the identical
payload into the transport sink and forwards nothing to the receiver
channel (the iteration contributes exactly the one sink effect); received
`Pong` frames and raw intermediate frames are dropped silently, with no
effect at all (native.rs lines 317-321). -/
theorem C8_ping_pong (s : NativeState) (evs : List Ev) (d : List Nat)
    (rest : List InEvent) (h1 : s.outq = []) :
    (s.inq = InEvent.frame (TsMessage.Ping d) :: rest →
      s.sink.headD true = true →
      nativeDispatcherRun (Ev.step :: evs) s
        = RunResult.withPre [Effect.sinkSend (TsMessage.Pong d)] []
            (nativeDispatcherRun evs
              { s with inq := rest, sink := s.sink.tail }))
    ∧ (s.inq = InEvent.frame (TsMessage.Pong d) :: rest →
      nativeDispatcherRun (Ev.step :: evs) s
        = nativeDispatcherRun evs { s with inq := rest })
    ∧ (s.inq = InEvent.frame TsMessage.Frame :: rest →
      nativeDispatcherRun (Ev.step :: evs) s
        = nativeDispatcherRun evs { s with inq := rest }) := by
  refine ⟨?_, ?_, ?_⟩
  · intro h2 hok
    rw [List.headD_eq_head?] at hok
    simp [nativeDispatcherRun, nativeSelect, h1, h2, hok]
  · intro h2
    simp [nativeDispatcherRun, nativeSelect, h1, h2]
  · intro h2
    simp [nativeDispatcherRun, nativeSelect, h1, h2]

/-- Witness for `C8_ping_pong`: a ping with payload `[1, 2, 3]`, a pong and
a raw frame, each at a concrete state. -/
theorem C8_ping_pong_witness :
    (nativeDispatcherRun [Ev.step]
        { outq := [], inq := [InEvent.frame (TsMessage.Ping [1, 2, 3])],
          ineof := false, shutReq := false, sink := [] }
      = RunResult.withPre [Effect.sinkSend (TsMessage.Pong [1, 2, 3])] []
          (nativeDispatcherRun []
            { outq := [], inq := [], ineof := false, shutReq := false,
              sink := [] }))
    ∧ (nativeDispatcherRun [Ev.step]
        { outq := [], inq := [InEvent.frame (TsMessage.Pong [4])],
          ineof := false, shutReq := false, sink := [] }
      = nativeDispatcherRun []
          { outq := [], inq := [], ineof := false, shutReq := false,
            sink := [] })
    ∧ (nativeDispatcherRun [Ev.step]
        { outq := [], inq := [InEvent.frame TsMessage.Frame],
          ineof := false, shutReq := false, sink := [] }
      = nativeDispatcherRun []
          { outq := [], inq := [], ineof := false, shutReq := false,
            sink := [] }) :=
  ⟨(C8_ping_pong _ [] [1, 2, 3] [] rfl).1 rfl rfl,
   (C8_ping_pong _ [] [4] [] rfl).2.1 rfl,
   (C8_ping_pong _ [] [] [] rfl).2.2 rfl⟩

/-- `ackEffects` distributes over trace concatenation. -/
theorem ackEffects_append (l1 l2 : List Effect) :
    ackEffects (l1 ++ l2) = ackEffects l1 ++ ackEffects l2 :=
  List.filterMap_append l1 l2 _

/-- `ackIds` distributes over concatenation of item lists. -/
theorem ackIds_append (l1 l2 : List (Message × Option Nat)) :
    ackIds (l1 ++ l2) = ackIds l1 ++ ackIds l2 :=
  List.filterMap_append l1 l2 _

/-- `ackEffectsW` distributes over trace concatenation. -/
theorem ackEffectsW_append (l1 l2 : List WEffect) :
    ackEffectsW (l1 ++ l2) = ackEffectsW l1 ++ ackEffectsW l2 :=
  List.filterMap_append l1 l2 _


/-- A sink-send effect contributes no ack identifier. -/
theorem ackEffects_sinkSend (f : TsMessage) (tr : List Effect) :
    ackEffects (Effect.sinkSend f :: tr) = ackEffects tr := rfl

/-- An ack-result effect contributes its ack identifier. -/
theorem ackEffects_ackResult (a : Nat) (ok : Bool) (tr : List Effect) :
    ackEffects (Effect.ackResult a ok :: tr) = a :: ackEffects tr := rfl

/-- A receiver-channel effect contributes no ack identifier. -/
theorem ackEffects_recv (m : Message) (tr : List Effect) :
    ackEffects (Effect.recv m :: tr) = ackEffects tr := rfl

/-- A shutdown acknowledgement contributes no ack identifier. -/
theorem ackEffects_shutdownAck (tr : List Effect) :
    ackEffects (Effect.shutdownAck :: tr) = ackEffects tr := rfl

/-- The empty trace contributes no ack identifier. -/
theorem ackEffects_nil : ackEffects [] = [] := rfl

/-- An ack-bearing item contributes its ack identifier. -/
theorem ackIds_cons_some (m : Message) (a : Nat)
    (ps : List (Message × Option Nat)) :
    ackIds ((m, some a) :: ps) = a :: ackIds ps := rfl

/-- An ack-less item contributes no ack identifier. -/
theorem ackIds_cons_none (m : Message) (ps : List (Message × Option Nat)) :
    ackIds ((m, none) :: ps) = ackIds ps := rfl

/-- The empty item list contributes no ack identifier. -/
theorem ackIds_nil : ackIds [] = [] := rfl

/-- Ack-delivery balance for the native dispatcher, generalized over the
starting state: under any schedule that only enqueues wire-serializable
outbound messages, the ack identifiers that receive a result are exactly
the ack identifiers of the dequeued outbound items, in order. -/
theorem native_ack_balance (evs : List Ev) (s : NativeState)
    (hs : stateOutOk s = true) (he : evsOutOk evs = true) :
    ackEffects (nativeDispatcherRun evs s).trace
      = ackIds (nativeDispatcherRun evs s).processed := by
  induction evs generalizing s with
  | nil => rfl
  | cons e evs ih =>
      simp only [evsOutOk, List.all_cons, Bool.and_eq_true] at he
      have he' : evsOutOk evs = true := he.2
      cases e with
      | enqOut m a =>
          have hm : serializable m = true := he.1
          have hs' : stateOutOk { s with outq := s.outq ++ [(m, a)] } = true := by
            simp only [stateOutOk, List.all_append, List.all_cons,
              List.all_nil, Bool.and_eq_true] at hs ⊢
            exact ⟨hs, hm, trivial⟩
          exact ih _ hs' he'
      | enqIn e' => exact ih _ hs he'
      | endIn => exact ih _ hs he'
      | reqShutdown => exact ih _ hs he'
      | step =>
          simp only [nativeDispatcherRun]
          cases hsel : nativeSelect s with
          | none => exact ih _ hs he'
          | some c =>
              cases c with
              | out =>
                  cases ho : s.outq with
                  | nil => exact ih _ hs he'
                  | cons p rest =>
                      obtain ⟨m, ack⟩ := p
                      simp only [stateOutOk, ho, List.all_cons,
                        Bool.and_eq_true] at hs
                      have hm : serializable m = true := hs.1
                      have hs' : stateOutOk
                          { s with outq := rest, sink := s.sink.tail } = true :=
                        hs.2
                      obtain ⟨f, hf⟩ : ∃ f, tsMessageOfMessage m = some f := by
                        cases m with
                        | Text t => exact ⟨_, rfl⟩
                        | Binary d => exact ⟨_, rfl⟩
                        | Open => simp [serializable] at hm
                        | Close => simp [serializable] at hm
                      cases ack with
                      | some a =>
                          simp only [nativeDispatcherRun, hsel, hf,
                            RunResult.withPre, List.cons_append,
                            List.nil_append, ackEffects_sinkSend,
                            ackEffects_ackResult, ackIds_cons_some]
                          rw [ih _ hs' he']
                      | none =>
                          cases hok : s.sink.headD true with
                          | true =>
                              simp only [nativeDispatcherRun, hsel, hf, hok,
                                if_true, RunResult.withPre, List.cons_append,
                                List.nil_append, ackEffects_sinkSend,
                                ackIds_cons_none]
                              exact ih _ hs' he'
                          | false =>
                              simp only [nativeDispatcherRun, hsel, hf, hok]
                              rfl
              | inn =>
                  cases hi : s.inq with
                  | nil => simp only [nativeDispatcherRun, hsel, hi]; rfl
                  | cons e'' rest =>
                      have hs' : stateOutOk { s with inq := rest } = true := hs
                      cases e'' with
                      | readErr => simp only [nativeDispatcherRun, hsel, hi]; rfl
                      | frame f =>
                          cases f with
                          | Text t =>
                              simp only [nativeDispatcherRun, hsel, hi,
                                RunResult.withPre, List.cons_append,
                                List.nil_append, ackEffects_recv]
                              exact ih _ hs' he'
                          | Binary d =>
                              simp only [nativeDispatcherRun, hsel, hi,
                                RunResult.withPre, List.cons_append,
                                List.nil_append, ackEffects_recv]
                              exact ih _ hs' he'
                          | Close =>
                              simp only [nativeDispatcherRun, hsel, hi,
                                RunResult.withPre, List.cons_append,
                                List.nil_append, ackEffects_recv]
                              exact ih _ hs' he'
                          | Ping d =>
                              cases hok : s.sink.headD true with
                              | true =>
                                  simp only [nativeDispatcherRun, hsel, hi,
                                    hok, if_true, RunResult.withPre,
                                    List.cons_append, List.nil_append,
                                    ackEffects_sinkSend]
                                  exact ih { s with inq := rest, sink := s.sink.tail } hs he'
                              | false =>
                                  simp only [nativeDispatcherRun, hsel, hi, hok]
                                  rfl
                          | Pong d =>
                              simp only [nativeDispatcherRun, hsel, hi]
                              exact ih _ hs' he'
                          | Frame =>
                              simp only [nativeDispatcherRun, hsel, hi]
                              exact ih _ hs' he'
              | shut => simp only [nativeDispatcherRun, hsel]; rfl

/-- A browser send effect contributes no ack identifier. -/
theorem ackEffectsW_send (m : Message) (tr : List WEffect) :
    ackEffectsW (WEffect.send m :: tr) = ackEffectsW tr := rfl

/-- A browser ack-result effect contributes its ack identifier. -/
theorem ackEffectsW_ackResult (a : Nat) (ok : Bool) (tr : List WEffect) :
    ackEffectsW (WEffect.ackResult a ok :: tr) = a :: ackEffectsW tr := rfl

/-- A browser receiver-channel effect contributes no ack identifier. -/
theorem ackEffectsW_recv (m : Message) (tr : List WEffect) :
    ackEffectsW (WEffect.recv m :: tr) = ackEffectsW tr := rfl

/-- A trigger-fire effect contributes no ack identifier. -/
theorem ackEffectsW_triggerFire (tr : List WEffect) :
    ackEffectsW (WEffect.triggerFire :: tr) = ackEffectsW tr := rfl

/-- A callback-cleanup effect contributes no ack identifier. -/
theorem ackEffectsW_cleanup (tr : List WEffect) :
    ackEffectsW (WEffect.cleanup :: tr) = ackEffectsW tr := rfl

/-- The empty browser trace contributes no ack identifier. -/
theorem ackEffectsW_nil : ackEffectsW [] = [] := rfl

/-- Ack-delivery balance for the browser dispatcher, generalized over the
starting state: under any schedule that only enqueues wire-serializable
outbound messages, the ack identifiers that receive a result are exactly
the ack identifiers of the dequeued outbound items, in order. -/
theorem wasm_ack_balance (wevs : List WEv) (s : WasmState)
    (hs : wStateOutOk s = true) (he : wevsOutOk wevs = true) :
    ackEffectsW (wasmDispatcherRun wevs s).trace
      = ackIds (wasmDispatcherRun wevs s).processed := by
  induction wevs generalizing s with
  | nil => rfl
  | cons e wevs ih =>
      simp only [wevsOutOk, List.all_cons, Bool.and_eq_true] at he
      have he' : wevsOutOk wevs = true := he.2
      cases e with
      | enqOut m a =>
          have hm : serializable m = true := he.1
          have hs' : wStateOutOk { s with outq := s.outq ++ [(m, a)] } = true := by
            simp only [wStateOutOk, List.all_append, List.all_cons,
              List.all_nil, Bool.and_eq_true] at hs ⊢
            exact ⟨hs, hm, trivial⟩
          exact ih _ hs' he'
      | enqEv m => exact ih _ hs he'
      | reqShutdown => exact ih _ hs he'
      | pick c =>
          simp only [wasmDispatcherRun]
          by_cases hr : wasmReady s c = true
          · rw [if_pos hr]
            cases c with
            | shut => rfl
            | inn =>
                cases hq : s.evq with
                | nil => exact ih _ hs he'
                | cons m rest =>
                    cases m with
                    | Text t =>
                        simp only [WRunResult.withPre, List.cons_append,
                          List.nil_append, ackEffectsW_recv]
                        exact ih _ hs he'
                    | Binary d =>
                        simp only [WRunResult.withPre, List.cons_append,
                          List.nil_append, ackEffectsW_recv]
                        exact ih _ hs he'
                    | Open =>
                        by_cases hh : s.hookOutcome = some false
                        · simp only [hh, eq_self_iff_true, if_true]
                          rfl
                        · simp only [hh, if_false, WRunResult.withPre,
                            List.append_assoc, List.cons_append,
                            List.nil_append]
                          cases ht : s.triggerArmed with
                          | true =>
                              simp only [eq_self_iff_true, if_true,
                                List.cons_append,
                                List.nil_append, ackEffectsW_triggerFire,
                                ackEffectsW_recv]
                              exact ih _ hs he'
                          | false =>
                              simp only [Bool.false_eq_true, if_false,
                                List.nil_append, ackEffectsW_recv]
                              exact ih _ hs he'
                    | Close => rfl
            | out =>
                cases hq : s.outq with
                | nil => exact ih _ hs he'
                | cons p rest =>
                    obtain ⟨m, ack⟩ := p
                    simp only [wStateOutOk, hq, List.all_cons,
                      Bool.and_eq_true] at hs
                    have hm : serializable m = true := hs.1
                    have hs' : wStateOutOk
                        { s with outq := rest, sink := s.sink.tail } = true :=
                      hs.2
                    simp only [hm, eq_self_iff_true, if_true]
                    cases ack with
                    | some a =>
                        simp only [WRunResult.withPre, List.cons_append,
                          List.nil_append, ackEffectsW_send,
                          ackEffectsW_ackResult, ackIds_cons_some]
                        rw [ih _ hs' he']
                    | none =>
                        simp only [WRunResult.withPre, List.cons_append,
                          List.nil_append, ackEffectsW_send, ackIds_cons_none]
                        exact ih _ hs' he'
          · rw [if_neg hr]
            exact ih _ hs he'

/-- Claim C1: in both dispatcher loops, every outbound message dequeued
from the sender channel that carries an ack receives exactly one result
(send-success or send-error), on every exit path — successful send,
transport sink error, transport read error, and local shutdown with items
still queued in the sender channel.  Formally: under any schedule whose
enqueued outbound messages are wire-serializable (the tolerated
`Open`/`Close` serialization panic excluded), the sequence of ack
identifiers receiving a result equals the sequence of ack identifiers of
the dequeued items — each dequeued ack gets one result, and never a
second; items still queued at exit are not dequeued and get none. -/
theorem C1_dequeued_ack_gets_exactly_one_result (evs : List Ev)
    (wevs : List WEv) (h1 : evsOutOk evs = true)
    (h2 : wevsOutOk wevs = true) :
    ackEffects (nativeDispatcherRun evs nativeInit).trace
      = ackIds (nativeDispatcherRun evs nativeInit).processed
    ∧ ackEffectsW (wasmDispatcherRun wevs wasmInit).trace
      = ackIds (wasmDispatcherRun wevs wasmInit).processed :=
  ⟨native_ack_balance evs nativeInit rfl h1,
   wasm_ack_balance wevs wasmInit rfl h2⟩

/-- Witness for `C1_dequeued_ack_gets_exactly_one_result`: a native
schedule with an acknowledged send followed by a shutdown, and a browser
schedule with an acknowledged send followed by a close event. -/
theorem C1_dequeued_ack_witness :
    ackEffects (nativeDispatcherRun
        [Ev.enqOut (Message.Text "a") (some 1), Ev.step, Ev.reqShutdown,
         Ev.step] nativeInit).trace
      = ackIds (nativeDispatcherRun
        [Ev.enqOut (Message.Text "a") (some 1), Ev.step, Ev.reqShutdown,
         Ev.step] nativeInit).processed
    ∧ ackEffectsW (wasmDispatcherRun
        [WEv.enqOut (Message.Binary [7]) (some 2), WEv.pick Src.out,
         WEv.enqEv Message.Close, WEv.pick Src.inn] wasmInit).trace
      = ackIds (wasmDispatcherRun
        [WEv.enqOut (Message.Binary [7]) (some 2), WEv.pick Src.out,
         WEv.enqEv Message.Close, WEv.pick Src.inn] wasmInit).processed :=
  C1_dequeued_ack_gets_exactly_one_result _ _ (by decide) (by decide)

/-- The browser dispatcher fires the first-connect trigger only inside the
`Open` arm of the event-channel match, generalized over the starting
state: a trace containing a trigger-fire implies an `Open` event was
consumed from the event channel. -/
theorem wasm_trigger_only_open (wevs : List WEv) (s : WasmState)
    (h : WEffect.triggerFire ∈ (wasmDispatcherRun wevs s).trace) :
    Message.Open ∈ (wasmDispatcherRun wevs s).evProcessed := by
  induction wevs generalizing s with
  | nil => simp [wasmDispatcherRun] at h
  | cons e wevs ih =>
      cases e with
      | enqOut m a => exact ih _ h
      | enqEv m => exact ih _ h
      | reqShutdown => exact ih _ h
      | pick c =>
          simp only [wasmDispatcherRun] at h ⊢
          by_cases hr : wasmReady s c = true
          · rw [if_pos hr] at h ⊢
            cases c with
            | shut => simp at h
            | inn =>
                cases hq : s.evq with
                | nil =>
                    rw [hq] at h
                    exact ih _ h
                | cons m rest =>
                    rw [hq] at h
                    cases m with
                    | Text t =>
                        simp only [WRunResult.withPre, List.cons_append,
                          List.nil_append, List.mem_cons] at h ⊢
                        rcases h with h | h
                        · exact absurd h (by simp)
                        · exact Or.inr (ih _ h)
                    | Binary d =>
                        simp only [WRunResult.withPre, List.cons_append,
                          List.nil_append, List.mem_cons] at h ⊢
                        rcases h with h | h
                        · exact absurd h (by simp)
                        · exact Or.inr (ih _ h)
                    | Open =>
                        by_cases hh : s.hookOutcome = some false
                        · simp only [hh, eq_self_iff_true, if_true] at h ⊢
                          simp
                        · simp only [hh, if_false, WRunResult.withPre,
                            List.cons_append, List.nil_append] at h ⊢
                          simp
                    | Close =>
                        simp at h
            | out =>
                cases hq : s.outq with
                | nil =>
                    rw [hq] at h
                    exact ih _ h
                | cons p rest =>
                    obtain ⟨m, ack⟩ := p
                    rw [hq] at h
                    by_cases hm : serializable m = true
                    · simp only [hm, eq_self_iff_true, if_true] at h ⊢
                      cases ack with
                      | some a =>
                          simp only [WRunResult.withPre, List.cons_append,
                            List.nil_append, List.mem_cons] at h ⊢
                          rcases h with h | h | h
                          · exact absurd h (by simp)
                          · exact absurd h (by simp)
                          · exact ih _ h
                      | none =>
                          simp only [WRunResult.withPre, List.cons_append,
                            List.nil_append, List.mem_cons] at h ⊢
                          rcases h with h | h
                          · exact absurd h (by simp)
                          · exact ih _ h
                    · simp only [hm, if_false] at h
                      simp at h
          · rw [if_neg hr] at h ⊢
            exact ih _ h

/-- Claim C10: in the browser client, the first-connect trigger is fired
exclusively in the dispatcher's `Open` arm (wasm.rs lines 300-309): any
run whose trace fires the trigger has consumed an `Open` event from the
transport event channel.  Contrapositively, a dial that never produces an
`Open` event never fires the trigger, so a blocking `connect()` awaiting
that trigger stays unresolved; and since the trigger carries no payload
(`WEffect.triggerFire` has no error field, matching `triggered::Trigger`),
no error can be delivered to the caller through that path. -/
theorem C10_blocking_connect_resolves_only_after_open (wevs : List WEv)
    (h : WEffect.triggerFire ∈ (wasmDispatcherRun wevs wasmInit).trace) :
    Message.Open ∈ (wasmDispatcherRun wevs wasmInit).evProcessed :=
  wasm_trigger_only_open wevs wasmInit h

/-- Witness for `C10_blocking_connect_resolves_only_after_open`: a
schedule in which the transport delivers an `Open` event and the
dispatcher consumes it, firing the trigger. -/
theorem C10_blocking_connect_witness :
    Message.Open ∈ (wasmDispatcherRun
        [WEv.enqEv Message.Open, WEv.pick Src.inn] wasmInit).evProcessed :=
  C10_blocking_connect_resolves_only_after_open
    [WEv.enqEv Message.Open, WEv.pick Src.inn] (by decide)
